import Mathlib

/-!
Verification development for the FinanceStocks dashboard.

The repository has two source files:
  * `src/pages/api/stock.ts` — the Quote Gateway: a stateless request handler
    that forwards one upstream HTTP GET and classifies the response.
  * the page component (`Home`) — the Dashboard Controller: UI state, the
    `fetchStock` operation, `addToHistory`, `toggleFavorite`, `renderChange`,
    and startup restoration of the two persisted lists.

The embedding below transcribes the pure logic of those functions.  JavaScript
numbers are modelled as exact rationals (`ℚ`); JSON objects with dated keys are
modelled as association lists in insertion order, whose keys are unique;
JavaScript string-truthiness (`!s` is true exactly for the empty string or a
missing value) is modelled by `truthy`; a thrown-and-caught exception is
modelled by `Option`/explicit error branches.
-/

/-- One upstream daily bar, fields `"1. open"` … `"5. volume"` of the
`"Time Series (Daily)"` object.  The numeric strings are modelled by the
rational numbers they denote (the page coerces them with unary `+`). -/
structure RawBar where
  open1 : ℚ
  high2 : ℚ
  low3 : ℚ
  close4 : ℚ
  vol5 : ℚ
  deriving DecidableEq, Repr

/-- The `"Time Series (Daily)"` JSON object: date keys (ISO `YYYY-MM-DD`
strings) mapped to bars, kept in object insertion order.  JSON object keys are
unique, which appears as a `Nodup` hypothesis where it matters. -/
abbrev TimeSeries : Type := List (String × RawBar)

/-- An upstream (or gateway) JSON payload as far as the code inspects it:
the optional `"Error Message"` field, the optional `"Note"` field, and the
optional `"Time Series (Daily)"` object. -/
structure Payload where
  errorMessage : Option String
  note : Option String
  timeSeriesDaily : Option TimeSeries
  deriving DecidableEq

/-- JavaScript truthiness of an optional string field: `if (x)` succeeds
exactly when the field is present and non-empty. -/
def truthy : Option String → Bool
  | none => false
  | some s => !(s == "")

/-- `Response.ok` of the Fetch API: status in the inclusive range 200–299. -/
def upstreamOk (status : ℕ) : Bool := 200 ≤ status && status < 300

/-- Outcome of the gateway's single upstream `fetch`: either the call threw
(network failure), or it produced a response with an HTTP status, a body text
(read by `response.text()` on the non-ok path) and a parsed JSON payload
(read by `response.json()` on the ok path). -/
inductive UpstreamResult where
  | transportFail : UpstreamResult
  | httpResponse (status : ℕ) (text : String) (payload : Payload) : UpstreamResult

/-- A gateway response body: either an `{error: msg}` envelope or the raw
upstream payload passed through unmodified. -/
inductive GatewayBody where
  | errorObj (msg : String) : GatewayBody
  | raw (p : Payload) : GatewayBody
  deriving DecidableEq

/-- The Quote Gateway request handler (`src/pages/api/stock.ts`), returning
the HTTP status and JSON body it sends.  `querySymbol` is `req.query.symbol`
(`none` when absent; the string-array query case is not modelled) and
`apiKey` is `process.env.ALPHA_VANTAGE_API_KEY`. -/
def handler (querySymbol : Option String) (apiKey : Option String)
    (upstream : UpstreamResult) : ℕ × GatewayBody :=
  if truthy querySymbol = false then
    (400, .errorObj "Missing symbol parameter")
  else if truthy apiKey = false then
    (500, .errorObj "API key not set in environment variables")
  else
    match upstream with
    | .transportFail => (500, .errorObj "Failed to fetch data")
    | .httpResponse status text payload =>
      if upstreamOk status = false then
        (status, .errorObj ("Alpha Vantage error: " ++ text))
      else if truthy payload.errorMessage then
        (500, .errorObj (payload.errorMessage.getD ""))
      else if truthy payload.note then
        (429, .errorObj (payload.note.getD ""))
      else
        (200, .raw payload)

/-- One bar of the multi-day array built for the chart and summary table. -/
structure DailyBar where
  date : String
  open_ : ℚ
  high : ℚ
  low : ℚ
  close : ℚ
  volume : ℚ
  deriving DecidableEq, Repr

/-- The `StockData` interface of the page: the latest bar plus the nullable
previous close. -/
structure StockData where
  date : String
  open_ : ℚ
  high : ℚ
  low : ℚ
  close : ℚ
  volume : ℚ
  prevClose : Option ℚ
  deriving DecidableEq, Repr

/-- `Object.keys(timeSeries).sort().reverse()`: the date keys sorted
lexicographically ascending (JavaScript's default string sort) and then
reversed, i.e. descending. -/
def fetchDates (ts : TimeSeries) : List String :=
  (List.insertionSort (fun a b => a ≤ b) (ts.map Prod.fst)).reverse

/-- `timeSeries[date]`: association-list lookup.  The code only indexes with
keys taken from `Object.keys(timeSeries)`, so the default is never used. -/
def lookupBar (ts : TimeSeries) (d : String) : RawBar :=
  (List.lookup d ts).getD ⟨0, 0, 0, 0, 0⟩

/-- `{date, open: +d['1. open'], …}`: one row of the multi-day array. -/
def toDailyBar (d : String) (b : RawBar) : DailyBar :=
  ⟨d, b.open1, b.high2, b.low3, b.close4, b.vol5⟩

/-- The payload-processing core of `fetchStock` (lines building `dates`,
`latestData`, `multiDays`, `setStockData`, `setMultiDayData`): from the
time-series object it produces the snapshot and the multi-day array.
When the object has no keys, `dates[0]` is `undefined` and evaluating
`+latestData['1. open']` throws a `TypeError` that the surrounding `catch`
swallows — modelled by `none`. -/
def processPayload (ts : TimeSeries) : Option (StockData × List DailyBar) :=
  match fetchDates ts with
  | [] => none
  | latestDate :: rest =>
    let latestData := lookupBar ts latestDate
    let multiDays := ((latestDate :: rest).take 10).map fun d => toDailyBar d (lookupBar ts d)
    some ({ date := latestDate
            open_ := latestData.open1
            high := latestData.high2
            low := latestData.low3
            close := latestData.close4
            volume := latestData.vol5
            prevClose := match rest with
              | [] => none
              | d2 :: _ => some (lookupBar ts d2).close4 },
          multiDays)

/-- `addToHistory`: `[sym, ...prev.filter(h => h !== sym)].slice(0, 10)`. -/
def addToHistory (sym : String) (prev : List String) : List String :=
  (sym :: prev.filter (fun h => h != sym)).take 10

/-- `toggleFavorite`: if `favorites.includes(sym)` remove every occurrence
(`favorites.filter(f => f !== sym)`), otherwise append it
(`[...favorites, sym]`). -/
def toggleFavorite (sym : String) (favorites : List String) : List String :=
  if sym ∈ favorites then
    favorites.filter (fun f => f != sym)
  else
    favorites ++ [sym]

/-- `Number.prototype.toFixed(2)` on an exact rational: the value displayed,
as a rational with denominator dividing 100.  ECMAScript picks the integer
`n` minimising `|n / 100 - x|`, breaking ties towards the larger `n`, which
is `⌊100 x + 1/2⌋`. -/
def toFixed2 (q : ℚ) : ℚ := ((⌊q * 100 + 1/2⌋ : ℤ) : ℚ) / 100

/-- The rendered change indicator: directional marker (`"▲"`, `"▼"`, or the
empty string), colour, and the two displayed numbers after `toFixed(2)`. -/
structure ChangeDisplay where
  arrow : String
  color : String
  change2 : ℚ
  percent2 : ℚ
  deriving DecidableEq, Repr

/-- `renderChange(close, prevClose)`: `null` when `prevClose` is `null`,
otherwise the indicator built from `change = close - prevClose` and
`percent = change / prevClose * 100`. -/
def renderChange (close : ℚ) (prevClose : Option ℚ) : Option ChangeDisplay :=
  match prevClose with
  | none => none
  | some pc =>
    let change := close - pc
    let percent := change / pc * 100
    let arrow := if change > 0 then "▲" else if change < 0 then "▼" else ""
    let color := if change > 0 then "#16a34a" else if change < 0 then "#dc2626" else "#6b7280"
    some ⟨arrow, color, toFixed2 change, toFixed2 percent⟩

/-- The component state touched by `fetchStock`: the current symbol, the
snapshot, the error message, the loading flag, the search history and the
multi-day array. -/
structure HomeState where
  symbol : String
  stockData : Option StockData
  error : String
  loading : Bool
  history : List String
  multiDayData : List DailyBar
  deriving Repr

/-- Outcome of the client's `fetch('/api/stock?...')` + `res.json()` pair:
either the pair threw (network or JSON-parse failure), or it produced
`res.ok` and the parsed body. -/
inductive ClientNet where
  | throwErr : ClientNet
  | response (ok : Bool) (body : Payload) : ClientNet

/-- The `fetchStock` operation as a state transition.  The second component
records whether the network was consulted (`false` exactly when the function
returned before calling `fetch`).  Transcribed in source order: clear error,
snapshot and multi-day array; validate the symbol (empty string is falsy);
set loading; call the gateway; classify. -/
def fetchStock (s : HomeState) (net : ClientNet) : HomeState × Bool :=
  let s0 := { s with error := "", stockData := none, multiDayData := [] }
  if s0.symbol = "" then
    ({ s0 with error := "Please enter a stock symbol" }, false)
  else
    let s1 := { s0 with loading := true }
    match net with
    | .throwErr =>
      ({ s1 with error := "Error fetching stock data", loading := false }, true)
    | .response ok body =>
      if ok then
        match body.timeSeriesDaily with
        | none =>
          ({ s1 with error := "No time series data available for this symbol",
                     loading := false }, true)
        | some ts =>
          match processPayload ts with
          | none =>
            ({ s1 with error := "Error fetching stock data", loading := false }, true)
          | some (snap, bars) =>
            ({ s1 with stockData := some snap
                       multiDayData := bars
                       history := addToHistory s1.symbol s1.history
                       loading := false }, true)
      else
        ({ s1 with error := (if truthy body.errorMessage then body.errorMessage.getD ""
                             else "Failed to fetch stock data"),
                   loading := false }, true)

/-- Startup restoration of one persisted list (the `useEffect` bodies for
`stockSearchHistory` and `stockFavorites`): the state starts `[]`; if the
stored item is absent nothing happens; if `JSON.parse` throws (modelled by
the abstract parser returning `none`) the `catch` sets `[]`. -/
def restoreList (parse : String → Option (List String)) (stored : Option String) :
    List String :=
  match stored with
  | none => []
  | some item =>
    match parse item with
    | some l => l
    | none => []

/-- The two restoration effects run independently, one per stored key. -/
def restoreBoth (parse : String → Option (List String))
    (storedHistory storedFavorites : Option String) : List String × List String :=
  (restoreList parse storedHistory, restoreList parse storedFavorites)

/-! ## Helper lemmas -/

theorem fetchDates_perm (ts : TimeSeries) : (fetchDates ts).Perm (ts.map Prod.fst) :=
  (List.reverse_perm _).trans (List.perm_insertionSort _ _)

theorem fetchDates_length (ts : TimeSeries) : (fetchDates ts).length = ts.length := by
  rw [(fetchDates_perm ts).length_eq, List.length_map]

theorem fetchDates_sorted (ts : TimeSeries) :
    List.Pairwise (fun a b : String => b ≤ a) (fetchDates ts) := by
  unfold fetchDates
  rw [List.pairwise_reverse]
  exact List.sorted_insertionSort _ _

theorem fetchDates_nodup (ts : TimeSeries) (h : (ts.map Prod.fst).Nodup) :
    (fetchDates ts).Nodup :=
  (fetchDates_perm ts).nodup_iff.mpr h

theorem fetchDates_strictDesc (ts : TimeSeries) (h : (ts.map Prod.fst).Nodup) :
    List.Pairwise (fun a b : String => b < a) (fetchDates ts) :=
  ((fetchDates_sorted ts).and (fetchDates_nodup ts h)).imp
    (fun hab => lt_of_le_of_ne hab.1 (Ne.symm hab.2))

theorem processPayload_inv (ts : TimeSeries) (snap : StockData) (bars : List DailyBar)
    (h : processPayload ts = some (snap, bars)) :
    ∃ d1 rest, fetchDates ts = d1 :: rest ∧
      snap = { date := d1, open_ := (lookupBar ts d1).open1, high := (lookupBar ts d1).high2,
               low := (lookupBar ts d1).low3, close := (lookupBar ts d1).close4,
               volume := (lookupBar ts d1).vol5,
               prevClose := match rest with
                 | [] => none
                 | d2 :: _ => some (lookupBar ts d2).close4 } ∧
      bars = ((d1 :: rest).take 10).map (fun d => toDailyBar d (lookupBar ts d)) := by
  unfold processPayload at h
  cases hd : fetchDates ts with
  | nil => rw [hd] at h; exact absurd h (by simp)
  | cons d1 rest =>
    rw [hd] at h
    simp only [Option.some.injEq, Prod.mk.injEq] at h
    exact ⟨d1, rest, rfl, h.1.symm, h.2.symm⟩

/-- The concrete two-day upstream payload of the spec's testable property,
in JSON-object insertion order (`"2024-01-02"` listed first). -/
def twoDayTS : TimeSeries :=
  [("2024-01-02", ⟨10, 12, 9, 11, 100⟩), ("2024-01-01", ⟨9, 10, 8, 19/2, 80⟩)]

/-- The snapshot the page builds from `twoDayTS`. -/
def twoDaySnap : StockData :=
  { date := "2024-01-02", open_ := 10, high := 12, low := 9, close := 11, volume := 100,
    prevClose := some (19/2) }

/-- The multi-day array the page builds from `twoDayTS`. -/
def twoDayBars : List DailyBar :=
  [⟨"2024-01-02", 10, 12, 9, 11, 100⟩, ⟨"2024-01-01", 9, 10, 8, 19/2, 80⟩]

theorem processPayload_twoDay : processPayload twoDayTS = some (twoDaySnap, twoDayBars) := by
  have hle : ¬ ("2024-01-02" : String) ≤ "2024-01-01" := by
    rw [String.le_iff_toList_le]; decide
  simp [processPayload, fetchDates, twoDayTS, twoDaySnap, twoDayBars, lookupBar, toDailyBar,
    List.insertionSort, List.orderedInsert, hle, List.lookup]

theorem addToHistory_nodup (s : String) (h : List String) (hn : h.Nodup) :
    (addToHistory s h).Nodup := by
  refine List.Nodup.sublist (List.take_sublist _ _) ?_
  refine List.nodup_cons.mpr ⟨?_, hn.filter _⟩
  simp [List.mem_filter]

theorem addToHistory_length (s : String) (h : List String) :
    (addToHistory s h).length ≤ 10 := by
  unfold addToHistory
  rw [List.length_take]
  exact min_le_left _ _

theorem eq_empty_of_length_zero (s : String) (h : s.length = 0) : s = "" := by
  cases s with
  | mk data =>
    have hdata : data = [] := List.length_eq_zero.mp h
    simp [hdata]

/-! ## Claim theorems -/

/-- Claim C2: starting from any search history with no duplicates and at most
10 entries, any sequence of `addToHistory` operations leaves a history with at
most 10 entries and no duplicate symbol, and each append puts the appended
symbol at the head (most-recently-searched first). -/
theorem searchHistory_invariant (start : List String) (hnd : start.Nodup)
    (hlen : start.length ≤ 10) (syms : List String) :
    (syms.foldl (fun hist s => addToHistory s hist) start).Nodup ∧
    (syms.foldl (fun hist s => addToHistory s hist) start).length ≤ 10 ∧
    (∀ s hist, (addToHistory s hist).head? = some s) := by
  refine ⟨?_, ?_, fun s hist => rfl⟩
  · clear hlen
    induction syms generalizing start with
    | nil => exact hnd
    | cons a as ih => exact ih _ (addToHistory_nodup a start hnd)
  · induction syms generalizing start with
    | nil => exact hlen
    | cons a as ih => exact ih _ (addToHistory_nodup a start hnd) (addToHistory_length a start)

/-- Witness for C2: the concrete history `["MSFT"]` after appending
`"AAPL"`, `"TSLA"`, `"AAPL"` still satisfies the invariant. -/
theorem searchHistory_invariant_witness :
    ((["AAPL", "TSLA", "AAPL"].foldl (fun hist s => addToHistory s hist) ["MSFT"]).Nodup ∧
     (["AAPL", "TSLA", "AAPL"].foldl (fun hist s => addToHistory s hist) ["MSFT"]).length ≤ 10 ∧
     (∀ s hist, (addToHistory s hist).head? = some s)) :=
  searchHistory_invariant ["MSFT"] (by decide) (by decide) ["AAPL", "TSLA", "AAPL"]

/-- Claim C8: toggling a symbol twice restores its original membership in the
favorites list. -/
theorem favorites_toggle_membership (favs : List String) (sym : String) :
    sym ∈ toggleFavorite sym (toggleFavorite sym favs) ↔ sym ∈ favs := by
  by_cases h : sym ∈ favs
  · have h1 : toggleFavorite sym favs = favs.filter (fun f => f != sym) := by
      simp [toggleFavorite, h]
    have h2 : sym ∉ favs.filter (fun f => f != sym) := by simp [List.mem_filter]
    simp [toggleFavorite, h1, h2, h]
  · have h1 : toggleFavorite sym favs = favs ++ [sym] := by simp [toggleFavorite, h]
    have h2 : sym ∈ favs ++ [sym] := by simp
    simp [toggleFavorite, h1, h2, h, List.mem_filter]

/-- Claim C6: when the current symbol is empty, `fetchStock` reports the
validation message and never consults the network. -/
theorem fetch_empty_symbol_guard (s : HomeState) (net : ClientNet)
    (h : s.symbol.length = 0) :
    (fetchStock s net).2 = false ∧
    (fetchStock s net).1.error = "Please enter a stock symbol" := by
  have hs : s.symbol = "" := eq_empty_of_length_zero _ h
  constructor <;> simp [fetchStock, hs]

/-- Witness for C6: a concrete state with an empty symbol. -/
theorem fetch_empty_symbol_guard_witness :
    (fetchStock ⟨"", none, "old", false, ["MSFT"], []⟩ .throwErr).2 = false ∧
    (fetchStock ⟨"", none, "old", false, ["MSFT"], []⟩ .throwErr).1.error =
      "Please enter a stock symbol" :=
  fetch_empty_symbol_guard ⟨"", none, "old", false, ["MSFT"], []⟩ .throwErr (by decide)

/-- Claim C9: `fetchStock` clears the snapshot, the multi-day series and the
error message before validating the symbol, so a validation failure leaves the
previous display discarded, the history untouched, and the loading flag
exactly as it was (it is never set on this path). -/
theorem fetch_validation_clears_display (s : HomeState) (net : ClientNet)
    (h : s.symbol = "") :
    (fetchStock s net).1.stockData = none ∧
    (fetchStock s net).1.multiDayData = [] ∧
    (fetchStock s net).1.error = "Please enter a stock symbol" ∧
    (fetchStock s net).1.loading = s.loading ∧
    (fetchStock s net).1.history = s.history ∧
    (fetchStock s net).2 = false := by
  refine ⟨?_, ?_, ?_, ?_, ?_, ?_⟩ <;> simp [fetchStock, h]

/-- Witness for C9: a state that still displays a snapshot and series, with
the loading flag up, loses the display but keeps the flag. -/
theorem fetch_validation_clears_display_witness :
    (fetchStock ⟨"", some twoDaySnap, "prior", true, ["MSFT"], twoDayBars⟩ .throwErr).1.stockData
        = none ∧
    (fetchStock ⟨"", some twoDaySnap, "prior", true, ["MSFT"], twoDayBars⟩ .throwErr).1.multiDayData
        = [] ∧
    (fetchStock ⟨"", some twoDaySnap, "prior", true, ["MSFT"], twoDayBars⟩ .throwErr).1.error
        = "Please enter a stock symbol" ∧
    (fetchStock ⟨"", some twoDaySnap, "prior", true, ["MSFT"], twoDayBars⟩ .throwErr).1.loading
        = (⟨"", some twoDaySnap, "prior", true, ["MSFT"], twoDayBars⟩ : HomeState).loading ∧
    (fetchStock ⟨"", some twoDaySnap, "prior", true, ["MSFT"], twoDayBars⟩ .throwErr).1.history
        = (⟨"", some twoDaySnap, "prior", true, ["MSFT"], twoDayBars⟩ : HomeState).history ∧
    (fetchStock ⟨"", some twoDaySnap, "prior", true, ["MSFT"], twoDayBars⟩ .throwErr).2 = false :=
  fetch_validation_clears_display ⟨"", some twoDaySnap, "prior", true, ["MSFT"], twoDayBars⟩
    .throwErr rfl

/-- Claim C3, counterexample: for a non-2xx upstream response with body text
`"upstream broke"`, the gateway does NOT reply with
`{error: "upstream broke"}` — the handler prefixes the body with
`"Alpha Vantage error: "` before wrapping it. -/
theorem gateway_body_not_wrapped_unmodified :
    handler (some "AAPL") (some "key")
      (.httpResponse 404 "upstream broke"
        { errorMessage := none, note := none, timeSeriesDaily := none }) ≠
    (404, .errorObj "upstream broke") := by decide

/-- Claim C3, amended: for every non-2xx upstream response with status `s` and
body text `t`, the gateway responds with status `s` and body
`{error: "Alpha Vantage error: " ++ t}`; an upstream transport failure gets
status 500 with the generic `{error: "Failed to fetch data"}`. -/
theorem gateway_upstream_error_propagation (sym key : String) (hsym : sym ≠ "")
    (hkey : key ≠ "") (status : ℕ) (text : String) (p : Payload)
    (hnotok : upstreamOk status = false) :
    handler (some sym) (some key) (.httpResponse status text p) =
      (status, .errorObj ("Alpha Vantage error: " ++ text)) ∧
    handler (some sym) (some key) .transportFail =
      (500, .errorObj "Failed to fetch data") := by
  have hs : truthy (some sym) = true := by simp [truthy, hsym]
  have hk : truthy (some key) = true := by simp [truthy, hkey]
  constructor <;> simp [handler, hs, hk, hnotok]

/-- Witness for the amended C3: the concrete 404 response and a transport
failure. -/
theorem gateway_upstream_error_propagation_witness :
    handler (some "AAPL") (some "key")
      (.httpResponse 404 "upstream broke"
        { errorMessage := none, note := none, timeSeriesDaily := none }) =
      (404, .errorObj ("Alpha Vantage error: " ++ "upstream broke")) ∧
    handler (some "AAPL") (some "key") .transportFail =
      (500, .errorObj "Failed to fetch data") :=
  gateway_upstream_error_propagation "AAPL" "key" (by decide) (by decide) 404 "upstream broke"
    { errorMessage := none, note := none, timeSeriesDaily := none } (by decide)

/-- Claim C10: restoring a persisted list whose stored value is absent, or is
rejected by the JSON parser, yields the empty list (never an error), and each
of the two lists is restored independently of the other's stored value. -/
theorem startup_restoration_defaults (parse : String → Option (List String))
    (storedH storedF : Option String) :
    (restoreBoth parse none storedF).1 = [] ∧
    (∀ item, parse item = none → (restoreBoth parse (some item) storedF).1 = []) ∧
    (restoreBoth parse storedH none).2 = [] ∧
    (∀ item, parse item = none → (restoreBoth parse storedH (some item)).2 = []) ∧
    (∀ h h', (restoreBoth parse h storedF).2 = (restoreBoth parse h' storedF).2) ∧
    (∀ f f', (restoreBoth parse storedH f).1 = (restoreBoth parse storedH f').1) := by
  refine ⟨rfl, fun item hp => ?_, rfl, fun item hp => ?_, fun h h' => rfl, fun f f' => rfl⟩
  · simp [restoreBoth, restoreList, hp]
  · simp [restoreBoth, restoreList, hp]

/-- Witness for C10: a parser rejecting everything restores both lists
empty. -/
theorem startup_restoration_defaults_witness :
    (restoreBoth (fun _ => none) (some "not json") (some "also bad")).1 = [] ∧
    (restoreBoth (fun _ => none) (some "not json") (some "also bad")).2 = [] :=
  ⟨(startup_restoration_defaults (fun _ => none) (some "not json") (some "also bad")).2.1
      "not json" rfl,
   (startup_restoration_defaults (fun _ => none) (some "not json") (some "also bad")).2.2.2.1
      "also bad" rfl⟩

/-- Claim C5: a 2xx upstream payload is classified in order — a (truthy)
explicit `"Error Message"` field gives 500 with that message; otherwise a
(truthy) `"Note"` advisory gives 429 with that message; otherwise the raw
payload is passed through with 200.  In particular the upstream body
`{"Note": "rate limited"}` yields 429 with `{"error":"rate limited"}`. -/
theorem gateway_success_classification (sym key : String) (hsym : sym ≠ "")
    (hkey : key ≠ "") (status : ℕ) (text : String) (p : Payload)
    (hok : upstreamOk status = true) :
    (∀ m, p.errorMessage = some m → m ≠ "" →
      handler (some sym) (some key) (.httpResponse status text p) = (500, .errorObj m)) ∧
    (truthy p.errorMessage = false → ∀ n, p.note = some n → n ≠ "" →
      handler (some sym) (some key) (.httpResponse status text p) = (429, .errorObj n)) ∧
    (truthy p.errorMessage = false → truthy p.note = false →
      handler (some sym) (some key) (.httpResponse status text p) = (200, .raw p)) ∧
    handler (some sym) (some key)
      (.httpResponse 200 ""
        { errorMessage := none, note := some "rate limited", timeSeriesDaily := none }) =
      (429, .errorObj "rate limited") := by
  have hs : truthy (some sym) = true := by simp [truthy, hsym]
  have hk : truthy (some key) = true := by simp [truthy, hkey]
  refine ⟨fun m hm hm' => ?_, fun hem n hn hn' => ?_, fun hem hnote => ?_, ?_⟩
  · have hm2 : truthy (some m) = true := by simp [truthy, hm']
    simp [handler, hs, hk, hok, hm, hm2]
  · have hn2 : truthy (some n) = true := by simp [truthy, hn']
    simp [handler, hs, hk, hok, hem, hn, hn2]
  · simp [handler, hs, hk, hok, hem, hnote]
  · have hok200 : upstreamOk 200 = true := by decide
    have hem2 : truthy (none : Option String) = false := by decide
    have hn2 : truthy (some "rate limited") = true := by decide
    simp [handler, hs, hk, hok200, hem2, hn2]

/-- Witness for C5: the rate-limit advisory instance, obtained from the last
conjunct of the classification theorem at a concrete symbol and key. -/
theorem gateway_success_classification_witness :
    handler (some "AAPL") (some "key")
      (.httpResponse 200 ""
        { errorMessage := none, note := some "rate limited", timeSeriesDaily := none }) =
      (429, .errorObj "rate limited") :=
  (gateway_success_classification "AAPL" "key" (by decide) (by decide) 200 ""
    { errorMessage := none, note := none, timeSeriesDaily := none } (by decide)).2.2.2

/-- Claim C1: for every successful fetch over a payload, the snapshot's
`prevClose` is null iff the series has fewer than 2 dated entries; with at
least 2 entries it equals the close stored under the second date of the
descending sort, and the descending sort is a `≥`-sorted permutation of the
payload's date keys. -/
theorem previousClose_iff_second_entry (ts : TimeSeries) (snap : StockData)
    (bars : List DailyBar) (h : processPayload ts = some (snap, bars)) :
    (snap.prevClose = none ↔ ts.length < 2) ∧
    (∀ d1 d2 rest, fetchDates ts = d1 :: d2 :: rest →
      snap.prevClose = some (lookupBar ts d2).close4) ∧
    (fetchDates ts).Perm (ts.map Prod.fst) ∧
    List.Pairwise (fun a b : String => b ≤ a) (fetchDates ts) := by
  obtain ⟨d1, rest, hd, hsnap, hbars⟩ := processPayload_inv ts snap bars h
  have hlen : (fetchDates ts).length = ts.length := fetchDates_length ts
  refine ⟨?_, ?_, fetchDates_perm ts, fetchDates_sorted ts⟩
  · cases rest with
    | nil =>
      have hl1 : ts.length = 1 := by rw [← hlen, hd]; rfl
      rw [hsnap]
      simp [hl1]
    | cons d2 r =>
      have hl2 : ts.length = r.length + 2 := by rw [← hlen, hd]; simp
      rw [hsnap]
      simp [hl2]
  · intro e1 e2 er he
    rw [hd] at he
    injection he with h1 h2
    subst h1
    subst h2
    rw [hsnap]

/-- Witness for C1: the concrete two-day payload, where `prevClose` is the
close (9.5) of the older date. -/
theorem previousClose_iff_second_entry_witness :
    (twoDaySnap.prevClose = none ↔ twoDayTS.length < 2) ∧
    (∀ d1 d2 rest, fetchDates twoDayTS = d1 :: d2 :: rest →
      twoDaySnap.prevClose = some (lookupBar twoDayTS d2).close4) ∧
    (fetchDates twoDayTS).Perm (twoDayTS.map Prod.fst) ∧
    List.Pairwise (fun a b : String => b ≤ a) (fetchDates twoDayTS) :=
  previousClose_iff_second_entry twoDayTS twoDaySnap twoDayBars processPayload_twoDay

/-- Claim C7: for every successful fetch, the multi-day series has exactly
`min 10 n` bars for `n` dated entries, its dates are the first 10 of the
descending sort of the payload's keys (a permutation of those keys), and —
when the keys are distinct, as JSON object keys are — the bars are strictly
newest-first. -/
theorem recentSeries_window (ts : TimeSeries) (hkeys : (ts.map Prod.fst).Nodup)
    (snap : StockData) (bars : List DailyBar)
    (h : processPayload ts = some (snap, bars)) :
    bars.length = min 10 ts.length ∧
    bars.map DailyBar.date = (fetchDates ts).take 10 ∧
    (fetchDates ts).Perm (ts.map Prod.fst) ∧
    List.Pairwise (fun a b : String => b < a) (bars.map DailyBar.date) := by
  obtain ⟨d1, rest, hd, hsnap, hbars⟩ := processPayload_inv ts snap bars h
  have hmap : bars.map DailyBar.date = (fetchDates ts).take 10 := by
    rw [hbars, List.map_map]
    have hcomp : (DailyBar.date ∘ fun d => toDailyBar d (lookupBar ts d)) = id := by
      funext d; rfl
    rw [hcomp, List.map_id, hd]
  refine ⟨?_, hmap, fetchDates_perm ts, ?_⟩
  · rw [hbars, List.length_map, List.length_take, ← hd, fetchDates_length]
  · rw [hmap]
    exact (fetchDates_strictDesc ts hkeys).sublist (List.take_sublist _ _)

/-- Witness for C7: the concrete two-day payload gives 2 = min 10 2 bars in
strictly descending date order. -/
theorem recentSeries_window_witness :
    (twoDayBars.length = min 10 twoDayTS.length ∧
     twoDayBars.map DailyBar.date = (fetchDates twoDayTS).take 10 ∧
     (fetchDates twoDayTS).Perm (twoDayTS.map Prod.fst) ∧
     List.Pairwise (fun a b : String => b < a) (twoDayBars.map DailyBar.date)) :=
  recentSeries_window twoDayTS (by decide) twoDaySnap twoDayBars processPayload_twoDay

/-- Claim C4: with a null `prevClose` no indicator is rendered; with a
non-null one the indicator carries `delta = close - prevClose` and
`percent = delta / prevClose * 100`, both displayed via `toFixed(2)`, the
marker and colour chosen by the sign of `delta`.  On the spec's concrete
two-day payload the snapshot is `{date 2024-01-02, close 11, prevClose 9.5}`
and the indicator is the upward marker with `1.50` and `15.79`. -/
theorem changeIndicator_spec :
    (∀ close : ℚ, renderChange close none = none) ∧
    (∀ close pc : ℚ, renderChange close (some pc) =
      some { arrow := if 0 < close - pc then "▲" else if close - pc < 0 then "▼" else "",
             color := if 0 < close - pc then "#16a34a"
                      else if close - pc < 0 then "#dc2626" else "#6b7280",
             change2 := toFixed2 (close - pc),
             percent2 := toFixed2 ((close - pc) / pc * 100) }) ∧
    processPayload twoDayTS = some (twoDaySnap, twoDayBars) ∧
    twoDaySnap.date = "2024-01-02" ∧ twoDaySnap.close = 11 ∧
    twoDaySnap.prevClose = some (19/2) ∧
    renderChange twoDaySnap.close twoDaySnap.prevClose =
      some { arrow := "▲", color := "#16a34a", change2 := 3/2, percent2 := 1579/100 } := by
  refine ⟨fun close => rfl, fun close pc => rfl, processPayload_twoDay, rfl, rfl, rfl, ?_⟩
  norm_num [renderChange, toFixed2, twoDaySnap]
